import Mathlib

/-!
Shallow embedding of the update-payment flow controller implemented in
frontend/src/components/Header.tsx.

The component keeps its state in React useState hooks; we gather those
hooks into a record `HeaderState`. Each event handler of the source is
embedded as a pure function from the current state (plus the outcome of
any backend fetch it performs, supplied as an oracle argument) to the new
state together with its observable effects: the notices it shows, the
charge request it issues (if any), and whether it starts polling or
clears the poll interval. On top of the per-event functions, a small
trace semantics (`flowStep` / `flowRuns`) models the poll interval
created by `pollUpdateStatus`: ticks fire every 3000 ms while the
interval has not been cleared by a terminal status, and a
`setTimeout(() => clearInterval(interval), 5 * 60 * 1000)` stops the
schedule 5 minutes after poll start. A tick due at exactly the 5-minute
mark fires before the timeout callback (the interval timer was scheduled
first), so the schedule admits ticks at times `3000 * (k + 1) ≤ 300000`.
-/

/-- Severity argument passed to showNotification in the source
(the strings passed as second argument: success, error, info). -/
inductive Severity
  | success
  | error
  | info
  deriving DecidableEq, Repr

/-- Text of a user notice: either a translation key passed to t(...) in
the source, or a backend-supplied string shown verbatim. -/
inductive Msg
  | key (k : String)
  | text (s : String)
  deriving DecidableEq, Repr

/-- One call to showNotification. -/
structure Notice where
  msg : Msg
  severity : Severity
  deriving DecidableEq, Repr

/-- JavaScript truthiness of a string-or-null value: null and the empty
string are falsy, every other string is truthy. -/
def jsTruthy : Option String → Bool
  | none => false
  | some s => if s = "" then false else true

/-- JavaScript expression a || t(k) for an optional backend string
field a: null / absent and the empty string fall through to the
translated fallback key. -/
def jsOrKey (o : Option String) (k : String) : Msg :=
  match o with
  | some s => if s = "" then Msg.key k else Msg.text s
  | none => Msg.key k

/-- The useState hooks of the Header component that the update-payment
flow reads or writes. -/
structure HeaderState where
  isUpdating : Bool
  showUpdateModal : Bool
  updateQrCode : Option String
  updateQrCodeBase64 : Option String
  updateTransactionId : Option String
  updateExpiresAt : Option String
  copied : Bool
  payerEmail : String
  payerFirstName : String
  payerLastName : String
  payerIdentificationType : String
  payerIdentificationNumber : String
  deriving DecidableEq, Repr

/-- The initial hook values in the source: booleans false, the four
charge fields null, payer text fields empty, identification type CPF. -/
def initialHeaderState : HeaderState where
  isUpdating := false
  showUpdateModal := false
  updateQrCode := none
  updateQrCodeBase64 := none
  updateTransactionId := none
  updateExpiresAt := none
  copied := false
  payerEmail := ""
  payerFirstName := ""
  payerLastName := ""
  payerIdentificationType := "CPF"
  payerIdentificationNumber := ""

/-- The payer object serialized into the body of the platform-update
charge request. -/
structure ChargeRequestPayload where
  email : String
  firstName : String
  lastName : String
  idType : String
  idNumber : String
  deriving DecidableEq, Repr

/-- The replace non-digit regex applied to the identification number
before transmission: keep exactly the decimal digit characters. -/
def stripNonDigits (s : String) : String :=
  String.mk (s.data.filter Char.isDigit)

/-- The charge request body built in handleSubmitUpdate: payer fields
verbatim except the identification number, which is digit-stripped. -/
def chargePayload (s : HeaderState) : ChargeRequestPayload where
  email := s.payerEmail
  firstName := s.payerFirstName
  lastName := s.payerLastName
  idType := s.payerIdentificationType
  idNumber := stripNonDigits s.payerIdentificationNumber

/-- Body of a parsed charge-request response: the backend contract has
an optional error string on rejection and the four charge fields on
success; fields the backend omits are absent. -/
structure ChargeBody where
  error : Option String
  qrCode : Option String
  qrCodeBase64 : Option String
  transactionId : Option String
  expiresAt : Option String
  deriving DecidableEq, Repr

/-- Outcome of the awaited fetch + json() in handleSubmitUpdate: either
some step threw (network failure or unparseable body) or a response with
an HTTP status code and a parsed body was obtained. -/
inductive SubmitFetch
  | thrown
  | resp (status : Nat) (body : ChargeBody)
  deriving DecidableEq, Repr

/-- response.ok of the fetch API: status in the range 200..299. -/
def respOk (status : Nat) : Bool :=
  if 200 ≤ status ∧ status ≤ 299 then true else false

/-- Result of one run of handleSubmitUpdate: the state left behind, the
notices shown, the charge request passed to authenticatedFetch (none
when validation stopped before the call), and whether pollUpdateStatus
was started. -/
structure SubmitResult where
  st : HeaderState
  notices : List Notice
  request : Option ChargeRequestPayload
  pollStarted : Bool
  deriving DecidableEq, Repr

/-- Embedding of handleSubmitUpdate: the guard chain (login, payer
fields, identification number), then the charge request whose outcome is
the oracle argument, then the 503 / not-ok / success branches; thrown
outcomes land in the catch block; the finally block resets isUpdating. -/
def handleSubmitUpdate (currentUserId : String) (outcome : SubmitFetch)
    (s : HeaderState) : SubmitResult :=
  if currentUserId = "" then
    ⟨s, [⟨Msg.key "header.updateLoginRequired", Severity.error⟩], none, false⟩
  else if s.payerEmail = "" ∨ s.payerFirstName = "" ∨ s.payerLastName = "" then
    ⟨s, [⟨Msg.key "wallet.fillPayerInfo", Severity.error⟩], none, false⟩
  else if s.payerIdentificationNumber = "" then
    ⟨s, [⟨Msg.key "wallet.enterIdentification", Severity.error⟩], none, false⟩
  else
    match outcome with
    | SubmitFetch.thrown =>
      ⟨{ s with isUpdating := false },
       [⟨Msg.key "header.updateFailed", Severity.error⟩],
       some (chargePayload s), false⟩
    | SubmitFetch.resp status body =>
      if status = 503 then
        ⟨{ s with isUpdating := false },
         [⟨Msg.key "wallet.pixNotConfigured", Severity.info⟩],
         some (chargePayload s), false⟩
      else if respOk status = false then
        ⟨{ s with isUpdating := false },
         [⟨jsOrKey body.error "header.updateFailed", Severity.error⟩],
         some (chargePayload s), false⟩
      else
        ⟨{ s with isUpdating := false,
                  updateQrCode := body.qrCode,
                  updateQrCodeBase64 := body.qrCodeBase64,
                  updateTransactionId := body.transactionId,
                  updateExpiresAt := body.expiresAt },
         [⟨Msg.key "header.updateQrCodeGenerated", Severity.success⟩],
         some (chargePayload s), true⟩

/-- Result of one run of handleUpdatePlatform: new state, notices, and
the charge request it issues (it never issues one in the source). -/
structure InitiateResult where
  st : HeaderState
  notices : List Notice
  request : Option ChargeRequestPayload
  deriving DecidableEq, Repr

/-- Embedding of handleUpdatePlatform: without a user id it shows an
error notice; otherwise, whether or not a QR code is already present, it
only opens the modal — the branch on updateQrCode is kept to mirror the
source, both arms set showUpdateModal and nothing else. -/
def handleUpdatePlatform (currentUserId : String) (s : HeaderState) :
    InitiateResult :=
  if currentUserId = "" then
    ⟨s, [⟨Msg.key "header.updateLoginRequired", Severity.error⟩], none⟩
  else if jsTruthy s.updateQrCode then
    ⟨{ s with showUpdateModal := true }, [], none⟩
  else
    ⟨{ s with showUpdateModal := true }, [], none⟩

/-- Embedding of the update-modal close button onClick: always hide the
modal; additionally, when updateQrCode is truthy, null out the four
charge fields. It has no access to the poll interval handle. -/
def closeUpdateModal (s : HeaderState) : HeaderState :=
  if jsTruthy s.updateQrCode then
    { s with showUpdateModal := false,
             updateQrCode := none, updateQrCodeBase64 := none,
             updateTransactionId := none, updateExpiresAt := none }
  else
    { s with showUpdateModal := false }

/-- Body of a parsed status response: the backend contract is an
optional status string and an optional errorMessage string. -/
structure PollBody where
  status : Option String
  errorMessage : Option String
  deriving DecidableEq, Repr

/-- Outcome of the awaited fetch + json() of one poll tick: thrown
(network failure or malformed body — caught and only logged) or a
response with its ok flag and parsed body. -/
inductive PollFetch
  | thrown
  | resp (ok : Bool) (body : PollBody)
  deriving DecidableEq, Repr

/-- Result of one poll tick: the state left behind, the notices shown,
and whether clearInterval was called during the tick. -/
structure TickResult where
  st : HeaderState
  notices : List Notice
  cleared : Bool
  deriving DecidableEq, Repr

/-- Embedding of the setInterval callback body of pollUpdateStatus: on a
non-ok response or a thrown fetch nothing happens; on status completed
the interval is cleared, a success notice shown, the modal closed, the
charge fields nulled and the payer text fields reset; on status failed
the interval is cleared, an error notice shown (backend errorMessage if
truthy, else the generic key), the modal closed and the charge fields
nulled; any other status is a no-op. -/
def pollUpdateStatusTick (f : PollFetch) (s : HeaderState) : TickResult :=
  match f with
  | PollFetch.thrown => ⟨s, [], false⟩
  | PollFetch.resp ok body =>
    if ok then
      if body.status = some "completed" then
        ⟨{ s with showUpdateModal := false,
                  updateQrCode := none, updateQrCodeBase64 := none,
                  updateTransactionId := none, updateExpiresAt := none,
                  payerEmail := "", payerFirstName := "", payerLastName := "",
                  payerIdentificationNumber := "" },
         [⟨Msg.key "header.updateCompleted", Severity.success⟩], true⟩
      else if body.status = some "failed" then
        ⟨{ s with showUpdateModal := false,
                  updateQrCode := none, updateQrCodeBase64 := none,
                  updateTransactionId := none, updateExpiresAt := none },
         [⟨jsOrKey body.errorMessage "header.updateFailed", Severity.error⟩],
         true⟩
      else ⟨s, [], false⟩
    else ⟨s, [], false⟩

/-- Whether a tick outcome is terminal: an ok response whose status is
completed or failed — exactly the cases in which the tick body calls
clearInterval. -/
def terminalFetch : PollFetch → Bool
  | PollFetch.thrown => false
  | PollFetch.resp ok body =>
    ok && (if body.status = some "completed" ∨ body.status = some "failed"
           then true else false)

/-- The setInterval period of pollUpdateStatus, in milliseconds. -/
def pollPeriodMs : Nat := 3000

/-- The setTimeout delay after which the interval is force-cleared. -/
def pollTimeoutMs : Nat := 5 * 60 * 1000

/-- The time, relative to poll start, at which the interval fires for
the (k+1)-st time. -/
def tickTime (k : Nat) : Nat := pollPeriodMs * (k + 1)

/-- A run of the poll subsystem after a charge was created: the
component state, whether the interval handle is still uncleared by a
terminal tick, how many interval firings and status fetches happened,
and the accumulated notices. -/
structure FlowRun where
  st : HeaderState
  active : Bool
  ticks : Nat
  fetches : Nat
  notices : List Notice
  deriving DecidableEq, Repr

/-- The run started by pollUpdateStatus right after a successful charge
response left the component in state s. -/
def startPollRun (s : HeaderState) : FlowRun := ⟨s, true, 0, 0, []⟩

/-- Whether the interval can fire again in run r: its handle was not
cleared by a terminal tick, and the next firing time does not lie past
the 5-minute timeout that force-clears the interval. -/
def canFire (r : FlowRun) : Bool :=
  r.active && (if tickTime r.ticks ≤ pollTimeoutMs then true else false)

/-- Events interleaving with an ongoing poll: an interval tick with its
fetch outcome, or a click on the modal close button. -/
inductive HeaderEvent
  | tick (f : PollFetch)
  | closeClick
  deriving DecidableEq, Repr

/-- One event of the trace semantics: a close click runs the onClick
handler on the state only — the interval handle is a local of
pollUpdateStatus, out of its reach; a tick fires only while the interval
is uncleared and within the 5-minute schedule, and then runs the tick
body, performing one status fetch. -/
def flowStep (e : HeaderEvent) (r : FlowRun) : FlowRun :=
  match e with
  | HeaderEvent.closeClick => { r with st := closeUpdateModal r.st }
  | HeaderEvent.tick f =>
    if canFire r then
      let t := pollUpdateStatusTick f r.st
      { st := t.st, active := r.active && !t.cleared, ticks := r.ticks + 1,
        fetches := r.fetches + 1, notices := r.notices ++ t.notices }
    else r

/-- A whole event trace, folded left to right. -/
def flowRuns (es : List HeaderEvent) (r : FlowRun) : FlowRun :=
  es.foldl (fun a e => flowStep e a) r

/-- An event that neither reports a terminal status nor touches the
state: an interval tick whose outcome is non-terminal. -/
def quietEvent : HeaderEvent → Bool
  | HeaderEvent.tick f => !terminalFetch f
  | HeaderEvent.closeClick => false

/-- Classification of a notice as validation-class: the error-severity
notices produced by the payer-field guard chain of handleSubmitUpdate. -/
def isValidationNotice (n : Notice) : Bool :=
  if n.severity = Severity.error ∧
     (n.msg = Msg.key "wallet.fillPayerInfo" ∨
      n.msg = Msg.key "wallet.enterIdentification")
  then true else false

/-- A concrete filled-in form state: every payer field populated, the
modal open, no charge created yet. -/
def samplePayerState : HeaderState :=
  { initialHeaderState with
      showUpdateModal := true,
      payerEmail := "a@b.c",
      payerFirstName := "Ann",
      payerLastName := "Bee",
      payerIdentificationType := "CNPJ",
      payerIdentificationNumber := "000.000.000-00" }

/-- A concrete state with an active charge: the form state plus the four
charge fields returned by a successful charge response. -/
def sampleChargeState : HeaderState :=
  { samplePayerState with
      updateQrCode := some "pix-code",
      updateQrCodeBase64 := some "img-data",
      updateTransactionId := some "tx-1",
      updateExpiresAt := some "2026-01-01T00:00:00Z" }

/-- A concrete form state whose identification number is non-empty but
contains no digit at all. -/
def sampleNoDigitsState : HeaderState :=
  { samplePayerState with payerIdentificationNumber := "-" }

/-- A concrete event trace consisting only of quiet poll ticks: one
thrown fetch and one pending status response. -/
def sampleQuietEvents : List HeaderEvent :=
  [HeaderEvent.tick PollFetch.thrown,
   HeaderEvent.tick (PollFetch.resp true ⟨some "pending", none⟩),
   HeaderEvent.tick (PollFetch.resp false ⟨some "completed", none⟩)]

lemma flowRuns_nil (r : FlowRun) : flowRuns [] r = r := rfl

lemma flowRuns_cons (e : HeaderEvent) (es : List HeaderEvent) (r : FlowRun) :
    flowRuns (e :: es) r = flowRuns es (flowStep e r) := rfl

/-- A non-terminal ok tick outcome has status neither completed nor
failed. -/
lemma nonterminal_status (body : PollBody)
    (h : terminalFetch (PollFetch.resp true body) = false) :
    body.status ≠ some "completed" ∧ body.status ≠ some "failed" := by
  simp only [terminalFetch, Bool.true_and] at h
  by_cases hor : body.status = some "completed" ∨ body.status = some "failed"
  · rw [if_pos hor] at h; exact absurd h (by decide)
  · push_neg at hor; exact hor

/-- A non-terminal tick outcome leaves the state untouched, shows no
notice and does not clear the interval. -/
lemma tick_nonterminal_eq (f : PollFetch) (s : HeaderState)
    (h : terminalFetch f = false) :
    pollUpdateStatusTick f s = ⟨s, [], false⟩ := by
  cases f with
  | thrown => rfl
  | resp ok body =>
    cases ok with
    | false => rfl
    | true =>
      obtain ⟨h1, h2⟩ := nonterminal_status body h
      simp [pollUpdateStatusTick, h1, h2]

/-- The tick body calls clearInterval exactly on terminal outcomes. -/
lemma tick_cleared_eq (f : PollFetch) (s : HeaderState) :
    (pollUpdateStatusTick f s).cleared = terminalFetch f := by
  cases f with
  | thrown => rfl
  | resp ok body =>
    cases ok with
    | false => rfl
    | true =>
      by_cases h1 : body.status = some "completed"
      · simp [pollUpdateStatusTick, terminalFetch, h1]
      · by_cases h2 : body.status = some "failed"
        · simp [pollUpdateStatusTick, terminalFetch, h1, h2]
        · simp [pollUpdateStatusTick, terminalFetch, h1, h2]

/-- Setting showUpdateModal to false is the identity on a state whose
modal is already hidden. -/
lemma setModalFalse_id (s : HeaderState) (h : s.showUpdateModal = false) :
    { s with showUpdateModal := false } = s := by
  cases s
  simp_all

/-- After a terminal tick (interval cleared, modal hidden, no QR code)
every further event is a no-op on the run. -/
lemma flowStep_frozen (e : HeaderEvent) (r : FlowRun) (ha : r.active = false)
    (hm : r.st.showUpdateModal = false) (hq : r.st.updateQrCode = none) :
    flowStep e r = r := by
  cases e with
  | closeClick =>
    have h1 : closeUpdateModal r.st = r.st := by
      have hfalse : jsTruthy r.st.updateQrCode = false := by rw [hq]; rfl
      rw [closeUpdateModal, hfalse, if_neg (show ¬false = true by decide)]
      exact setModalFalse_id r.st hm
    show { r with st := closeUpdateModal r.st } = r
    rw [h1]
  | tick f =>
    have hc : canFire r = false := by simp [canFire, ha]
    simp [flowStep, hc]

lemma flowRuns_frozen (es : List HeaderEvent) (r : FlowRun)
    (ha : r.active = false) (hm : r.st.showUpdateModal = false)
    (hq : r.st.updateQrCode = none) :
    flowRuns es r = r := by
  induction es with
  | nil => rfl
  | cons e es ih =>
    rw [flowRuns_cons, flowStep_frozen e r ha hm hq]
    exact ih

/-- One step preserves the schedule invariant: every fetch is a firing,
and all firings so far lie within the 5-minute window. -/
lemma flowStep_inv (e : HeaderEvent) (r : FlowRun)
    (h1 : r.fetches = r.ticks) (h2 : pollPeriodMs * r.ticks ≤ pollTimeoutMs) :
    (flowStep e r).fetches = (flowStep e r).ticks ∧
    pollPeriodMs * (flowStep e r).ticks ≤ pollTimeoutMs := by
  cases e with
  | closeClick => exact ⟨h1, h2⟩
  | tick f =>
    by_cases hc : canFire r = true
    · have ht : tickTime r.ticks ≤ pollTimeoutMs := by
        simp only [canFire, Bool.and_eq_true] at hc
        have := hc.2
        by_cases hle : tickTime r.ticks ≤ pollTimeoutMs
        · exact hle
        · rw [if_neg hle] at this; exact absurd this (by decide)
      simp only [flowStep, if_pos hc]
      exact ⟨by simp [h1], by simpa [tickTime] using ht⟩
    · simp only [flowStep, if_neg hc]
      exact ⟨h1, h2⟩

lemma flowRuns_inv (es : List HeaderEvent) (r : FlowRun)
    (h1 : r.fetches = r.ticks) (h2 : pollPeriodMs * r.ticks ≤ pollTimeoutMs) :
    (flowRuns es r).fetches = (flowRuns es r).ticks ∧
    pollPeriodMs * (flowRuns es r).ticks ≤ pollTimeoutMs := by
  induction es generalizing r with
  | nil => exact ⟨h1, h2⟩
  | cons e es ih =>
    rw [flowRuns_cons]
    exact ih (flowStep e r) (flowStep_inv e r h1 h2).1 (flowStep_inv e r h1 h2).2

/-- A quiet event leaves state, notices and interval handle untouched. -/
lemma flowStep_quiet (e : HeaderEvent) (r : FlowRun)
    (h : quietEvent e = true) :
    (flowStep e r).st = r.st ∧ (flowStep e r).notices = r.notices ∧
    (flowStep e r).active = r.active := by
  cases e with
  | closeClick => exact absurd h (by simp [quietEvent])
  | tick f =>
    have ht : terminalFetch f = false := by
      simpa [quietEvent] using h
    by_cases hc : canFire r = true
    · simp [flowStep, hc, tick_nonterminal_eq f r.st ht]
    · simp [flowStep, hc]

lemma flowRuns_quiet (es : List HeaderEvent) (r : FlowRun)
    (h : ∀ e ∈ es, quietEvent e = true) :
    (flowRuns es r).st = r.st ∧ (flowRuns es r).notices = r.notices ∧
    (flowRuns es r).active = r.active := by
  induction es generalizing r with
  | nil => exact ⟨rfl, rfl, rfl⟩
  | cons e es ih =>
    have he := h e (List.mem_cons_self e es)
    have hes : ∀ x ∈ es, quietEvent x = true := fun x hx =>
      h x (List.mem_cons_of_mem e hx)
    rw [flowRuns_cons]
    obtain ⟨a1, a2, a3⟩ := flowStep_quiet e r he
    obtain ⟨b1, b2, b3⟩ := ih (flowStep e r) hes
    exact ⟨b1.trans a1, b2.trans a2, b3.trans a3⟩

/-- C10: when no payment code has been generated, the modal close
handler changes only the modal-visibility flag; every payer input field
and every charge-state field is left unchanged, so typed form input
survives dismissing and reopening the modal. -/
theorem claim_C10 (s : HeaderState) (h : s.updateQrCode = none) :
    closeUpdateModal s = { s with showUpdateModal := false } ∧
    (closeUpdateModal s).payerEmail = s.payerEmail ∧
    (closeUpdateModal s).payerFirstName = s.payerFirstName ∧
    (closeUpdateModal s).payerLastName = s.payerLastName ∧
    (closeUpdateModal s).payerIdentificationType = s.payerIdentificationType ∧
    (closeUpdateModal s).payerIdentificationNumber =
      s.payerIdentificationNumber ∧
    (closeUpdateModal s).updateQrCode = s.updateQrCode ∧
    (closeUpdateModal s).updateQrCodeBase64 = s.updateQrCodeBase64 ∧
    (closeUpdateModal s).updateTransactionId = s.updateTransactionId ∧
    (closeUpdateModal s).updateExpiresAt = s.updateExpiresAt ∧
    (closeUpdateModal s).isUpdating = s.isUpdating := by
  have hfalse : jsTruthy s.updateQrCode = false := by rw [h]; rfl
  have h1 : closeUpdateModal s = { s with showUpdateModal := false } := by
    rw [closeUpdateModal, hfalse, if_neg (show ¬false = true by decide)]
  rw [h1]
  exact ⟨rfl, rfl, rfl, rfl, rfl, rfl, h.symm ▸ rfl, rfl, rfl, rfl, rfl⟩

/-- Witness for C10 at a concrete form state. -/
theorem claim_C10_witness :
    samplePayerState.updateQrCode = none ∧
    closeUpdateModal samplePayerState =
      { samplePayerState with showUpdateModal := false } :=
  ⟨rfl, (claim_C10 samplePayerState rfl).1⟩

/-- C9: with a user id present and a QR code already generated, the
initiate handler issues no charge request; calling it twice in a row
leaves the state equal to the original with only the modal flag set,
keeps the stored code, and shows no notice. -/
theorem claim_C9 (uid : String) (s : HeaderState)
    (hu : uid ≠ "") (hq : jsTruthy s.updateQrCode = true) :
    (handleUpdatePlatform uid s).request = none ∧
    (handleUpdatePlatform uid s).notices = [] ∧
    (handleUpdatePlatform uid s).st = { s with showUpdateModal := true } ∧
    (handleUpdatePlatform uid (handleUpdatePlatform uid s).st).request = none ∧
    (handleUpdatePlatform uid (handleUpdatePlatform uid s).st).notices = [] ∧
    (handleUpdatePlatform uid (handleUpdatePlatform uid s).st).st =
      { s with showUpdateModal := true } ∧
    (handleUpdatePlatform uid (handleUpdatePlatform uid s).st).st.updateQrCode =
      s.updateQrCode := by
  simp [handleUpdatePlatform, hu, hq]

/-- Witness for C9 at a concrete active-charge state. -/
theorem claim_C9_witness :
    jsTruthy sampleChargeState.updateQrCode = true ∧
    (handleUpdatePlatform "u9" sampleChargeState).request = none ∧
    (handleUpdatePlatform "u9"
      (handleUpdatePlatform "u9" sampleChargeState).st).request = none :=
  ⟨by decide, (claim_C9 "u9" sampleChargeState (by decide) (by decide)).1,
   (claim_C9 "u9" sampleChargeState (by decide) (by decide)).2.2.2.1⟩

/-- C7: a poll tick with a non-terminal outcome (non-ok response, thrown
fetch or malformed body, or an ok response whose status is neither
completed nor failed) leaves the component state unchanged, surfaces no
notice, does not clear the interval, and in the trace semantics leaves
the run state, notices and interval handle unchanged. -/
theorem claim_C7 (f : PollFetch) (s : HeaderState) (r : FlowRun)
    (h : terminalFetch f = false) :
    pollUpdateStatusTick f s = ⟨s, [], false⟩ ∧
    (flowStep (HeaderEvent.tick f) r).st = r.st ∧
    (flowStep (HeaderEvent.tick f) r).notices = r.notices ∧
    (flowStep (HeaderEvent.tick f) r).active = r.active := by
  have hq : quietEvent (HeaderEvent.tick f) = true := by
    simp [quietEvent, h]
  obtain ⟨a, b, c⟩ := flowStep_quiet (HeaderEvent.tick f) r hq
  exact ⟨tick_nonterminal_eq f s h, a, b, c⟩

/-- Witness for C7 at a concrete pending response. -/
theorem claim_C7_witness :
    terminalFetch (PollFetch.resp true ⟨some "pending", none⟩) = false ∧
    pollUpdateStatusTick (PollFetch.resp true ⟨some "pending", none⟩)
      samplePayerState = ⟨samplePayerState, [], false⟩ :=
  ⟨by decide,
   (claim_C7 (PollFetch.resp true ⟨some "pending", none⟩) samplePayerState
     (startPollRun sampleChargeState) (by decide)).1⟩

/-- C2: a poll tick whose ok response reports status failed clears the
interval, nulls the four charge fields, closes the modal, leaves the
payer fields unchanged, and shows an error notice carrying the backend
errorMessage when one is supplied (non-empty) and the generic failure
key otherwise. -/
theorem claim_C2 (s : HeaderState) (body : PollBody)
    (hs : body.status = some "failed") :
    (pollUpdateStatusTick (PollFetch.resp true body) s).cleared = true ∧
    (pollUpdateStatusTick (PollFetch.resp true body) s).st =
      { s with showUpdateModal := false, updateQrCode := none,
               updateQrCodeBase64 := none, updateTransactionId := none,
               updateExpiresAt := none } ∧
    (∀ m, body.errorMessage = some m → m ≠ "" →
      (pollUpdateStatusTick (PollFetch.resp true body) s).notices =
        [⟨Msg.text m, Severity.error⟩]) ∧
    (body.errorMessage = none →
      (pollUpdateStatusTick (PollFetch.resp true body) s).notices =
        [⟨Msg.key "header.updateFailed", Severity.error⟩]) := by
  have hne : body.status ≠ some "completed" := by rw [hs]; decide
  have hresult : pollUpdateStatusTick (PollFetch.resp true body) s =
      ⟨{ s with showUpdateModal := false, updateQrCode := none,
                updateQrCodeBase64 := none, updateTransactionId := none,
                updateExpiresAt := none },
       [⟨jsOrKey body.errorMessage "header.updateFailed", Severity.error⟩],
       true⟩ := by
    simp [pollUpdateStatusTick, hs, hne]
  refine ⟨by rw [hresult], by rw [hresult], ?_, ?_⟩
  · intro m hm hmne
    rw [hresult, hm]
    simp [jsOrKey, hmne]
  · intro hnone
    rw [hresult, hnone]
    rfl

/-- Witness for C2 at a concrete failed response carrying message X. -/
theorem claim_C2_witness :
    (⟨some "failed", some "X"⟩ : PollBody).status = some "failed" ∧
    (pollUpdateStatusTick (PollFetch.resp true ⟨some "failed", some "X"⟩)
      samplePayerState).notices = [⟨Msg.text "X", Severity.error⟩] ∧
    (pollUpdateStatusTick (PollFetch.resp true ⟨some "failed", some "X"⟩)
      samplePayerState).cleared = true :=
  ⟨rfl,
   (claim_C2 samplePayerState ⟨some "failed", some "X"⟩ rfl).2.2.1 "X" rfl
     (by decide),
   (claim_C2 samplePayerState ⟨some "failed", some "X"⟩ rfl).1⟩

/-- C1 as stated is false at a concrete input: after a completed poll
tick on a state whose identification type is CNPJ, the PayerInfo field
payerIdentificationType is not cleared — it is neither emptied nor
returned to its initial hook value CPF, it still reads CNPJ. -/
theorem claim_C1_cex :
    (pollUpdateStatusTick (PollFetch.resp true ⟨some "completed", none⟩)
      samplePayerState).st.payerIdentificationType = "CNPJ" ∧
    ¬ ((pollUpdateStatusTick (PollFetch.resp true ⟨some "completed", none⟩)
        samplePayerState).st.payerIdentificationType = "" ∨
       (pollUpdateStatusTick (PollFetch.resp true ⟨some "completed", none⟩)
        samplePayerState).st.payerIdentificationType =
         initialHeaderState.payerIdentificationType) := by
  decide

/-- C1 (amended): a poll tick whose ok response reports status completed
stops the poll interval, nulls the four charge fields, clears the
PayerInfo fields email, firstName, lastName and identificationNumber
(payerIdentificationType is left unchanged), closes the modal, appends a
success notice, and is terminal: every later event leaves the run
unchanged. -/
theorem claim_C1 (r : FlowRun) (body : PollBody)
    (hc : canFire r = true) (hs : body.status = some "completed") :
    (flowStep (HeaderEvent.tick (PollFetch.resp true body)) r).st =
      { r.st with showUpdateModal := false, updateQrCode := none,
                  updateQrCodeBase64 := none, updateTransactionId := none,
                  updateExpiresAt := none, payerEmail := "",
                  payerFirstName := "", payerLastName := "",
                  payerIdentificationNumber := "" } ∧
    (flowStep (HeaderEvent.tick (PollFetch.resp true body)) r).notices =
      r.notices ++ [⟨Msg.key "header.updateCompleted", Severity.success⟩] ∧
    (flowStep (HeaderEvent.tick (PollFetch.resp true body)) r).active = false ∧
    (flowStep (HeaderEvent.tick (PollFetch.resp true body)) r).fetches =
      r.fetches + 1 ∧
    ∀ es, flowRuns es (flowStep (HeaderEvent.tick (PollFetch.resp true body)) r) =
      flowStep (HeaderEvent.tick (PollFetch.resp true body)) r := by
  have htick : pollUpdateStatusTick (PollFetch.resp true body) r.st =
      ⟨{ r.st with showUpdateModal := false, updateQrCode := none,
                   updateQrCodeBase64 := none, updateTransactionId := none,
                   updateExpiresAt := none, payerEmail := "",
                   payerFirstName := "", payerLastName := "",
                   payerIdentificationNumber := "" },
       [⟨Msg.key "header.updateCompleted", Severity.success⟩], true⟩ := by
    simp [pollUpdateStatusTick, hs]
  have hstep : flowStep (HeaderEvent.tick (PollFetch.resp true body)) r =
      ⟨{ r.st with showUpdateModal := false, updateQrCode := none,
                   updateQrCodeBase64 := none, updateTransactionId := none,
                   updateExpiresAt := none, payerEmail := "",
                   payerFirstName := "", payerLastName := "",
                   payerIdentificationNumber := "" },
       false, r.ticks + 1, r.fetches + 1,
       r.notices ++ [⟨Msg.key "header.updateCompleted", Severity.success⟩]⟩ := by
    simp [flowStep, hc, htick]
  refine ⟨by rw [hstep], by rw [hstep], by rw [hstep], by rw [hstep], ?_⟩
  intro es
  rw [hstep]
  exact flowRuns_frozen es _ rfl rfl rfl

/-- Witness for C1 (amended) at a concrete completed response and a
concrete later trace. -/
theorem claim_C1_witness :
    canFire (startPollRun sampleChargeState) = true ∧
    (flowStep (HeaderEvent.tick (PollFetch.resp true ⟨some "completed", none⟩))
      (startPollRun sampleChargeState)).active = false ∧
    flowRuns sampleQuietEvents
      (flowStep (HeaderEvent.tick (PollFetch.resp true ⟨some "completed", none⟩))
        (startPollRun sampleChargeState)) =
      flowStep (HeaderEvent.tick (PollFetch.resp true ⟨some "completed", none⟩))
        (startPollRun sampleChargeState) :=
  ⟨by decide,
   (claim_C1 (startPollRun sampleChargeState) ⟨some "completed", none⟩
     (by decide) rfl).2.2.1,
   (claim_C1 (startPollRun sampleChargeState) ⟨some "completed", none⟩
     (by decide) rfl).2.2.2.2 sampleQuietEvents⟩

/-- C3: while a charge is active (truthy QR code), a close click nulls
the four charge fields and hides the modal but leaves the interval
handle and the firing schedule untouched; and the only steps after which
the interval can no longer fire are a terminal tick or crossing the
5-minute ceiling. -/
theorem claim_C3 (r : FlowRun) (h : jsTruthy r.st.updateQrCode = true) :
    (flowStep HeaderEvent.closeClick r).st =
      { r.st with showUpdateModal := false, updateQrCode := none,
                  updateQrCodeBase64 := none, updateTransactionId := none,
                  updateExpiresAt := none } ∧
    (flowStep HeaderEvent.closeClick r).active = r.active ∧
    canFire (flowStep HeaderEvent.closeClick r) = canFire r ∧
    (∀ e, canFire r = true → canFire (flowStep e r) = false →
      (∃ f, e = HeaderEvent.tick f ∧ terminalFetch f = true) ∨
      pollTimeoutMs < tickTime (flowStep e r).ticks) := by
  refine ⟨?_, rfl, rfl, ?_⟩
  · show closeUpdateModal r.st = _
    rw [closeUpdateModal, h, if_pos rfl]
  · intro e h1 h2
    cases e with
    | closeClick => exact absurd (h1 ▸ h2) (by decide)
    | tick f =>
      have hr : r.active = true ∧ tickTime r.ticks ≤ pollTimeoutMs := by
        simp only [canFire, Bool.and_eq_true] at h1
        refine ⟨h1.1, ?_⟩
        by_cases hle : tickTime r.ticks ≤ pollTimeoutMs
        · exact hle
        · rw [if_neg hle] at h1; exact absurd h1.2 (by decide)
      by_cases ht : terminalFetch f = true
      · exact Or.inl ⟨f, rfl, ht⟩
      · have ht2 : terminalFetch f = false := by
          cases hb : terminalFetch f
          · rfl
          · exact absurd hb ht
        right
        have hcl := tick_cleared_eq f r.st
        rw [ht2] at hcl
        have hstep : flowStep (HeaderEvent.tick f) r =
            { st := (pollUpdateStatusTick f r.st).st,
              active := r.active && !(pollUpdateStatusTick f r.st).cleared,
              ticks := r.ticks + 1, fetches := r.fetches + 1,
              notices := r.notices ++ (pollUpdateStatusTick f r.st).notices } := by
          unfold flowStep
          dsimp only
          rw [if_pos h1]
        rw [hstep] at h2 ⊢
        simp only [canFire, hcl, Bool.not_false, Bool.and_true, hr.1,
          Bool.true_and] at h2 ⊢
        by_cases hle : tickTime (r.ticks + 1) ≤ pollTimeoutMs
        · rw [if_pos hle] at h2; exact absurd h2 (by decide)
        · omega

/-- Witness for C3 at a concrete active-charge run. -/
theorem claim_C3_witness :
    jsTruthy (startPollRun sampleChargeState).st.updateQrCode = true ∧
    (flowStep HeaderEvent.closeClick (startPollRun sampleChargeState)).active =
      (startPollRun sampleChargeState).active ∧
    canFire (flowStep HeaderEvent.closeClick (startPollRun sampleChargeState)) =
      canFire (startPollRun sampleChargeState) :=
  ⟨by decide, (claim_C3 (startPollRun sampleChargeState) (by decide)).2.1,
   (claim_C3 (startPollRun sampleChargeState) (by decide)).2.2.1⟩

/-- C4 as stated is false at a concrete input: the identification
number of sampleNoDigitsState contains no digit at all, yet submit
passes validation — a charge request is issued, its transmitted number
is the empty string, and the only notice shown (here, from the thrown
fetch) is not a validation notice. -/
theorem claim_C4_cex :
    (∀ c ∈ "-".data, c.isDigit = false) ∧
    sampleNoDigitsState.payerIdentificationNumber = "-" ∧
    (handleSubmitUpdate "user-1" SubmitFetch.thrown sampleNoDigitsState).request =
      some ⟨"a@b.c", "Ann", "Bee", "CNPJ", ""⟩ ∧
    (handleSubmitUpdate "user-1" SubmitFetch.thrown sampleNoDigitsState).notices =
      [⟨Msg.key "header.updateFailed", Severity.error⟩] ∧
    isValidationNotice ⟨Msg.key "header.updateFailed", Severity.error⟩ = false := by
  decide

/-- C4 (amended): submit transmits the identification number normalized
by stripping every non-digit character (000.000.000-00 is sent as
00000000000), and requires it to be non-empty before normalization: an
empty identification number fails with a validation notice and no
request, while a non-empty identification number without digits passes
validation and is transmitted as the empty string. -/
theorem claim_C4 (uid : String) (f : SubmitFetch) (s : HeaderState)
    (hu : uid ≠ "") (he : s.payerEmail ≠ "") (hfn : s.payerFirstName ≠ "")
    (hl : s.payerLastName ≠ "") :
    stripNonDigits "000.000.000-00" = "00000000000" ∧
    (chargePayload s).idNumber = stripNonDigits s.payerIdentificationNumber ∧
    (s.payerIdentificationNumber ≠ "" →
      (handleSubmitUpdate uid f s).request = some (chargePayload s)) ∧
    (s.payerIdentificationNumber = "" →
      (handleSubmitUpdate uid f s).request = none ∧
      (handleSubmitUpdate uid f s).notices =
        [⟨Msg.key "wallet.enterIdentification", Severity.error⟩]) := by
  refine ⟨by decide, rfl, ?_, ?_⟩
  · intro hn
    cases f with
    | thrown => simp [handleSubmitUpdate, hu, he, hfn, hl, hn]
    | resp status body =>
      by_cases h503 : status = 503
      · simp [handleSubmitUpdate, hu, he, hfn, hl, hn, h503]
      · by_cases hok : respOk status = false
        · simp [handleSubmitUpdate, hu, he, hfn, hl, hn, h503, hok]
        · simp [handleSubmitUpdate, hu, he, hfn, hl, hn, h503, hok]
  · intro hn
    constructor <;> simp [handleSubmitUpdate, hu, he, hfn, hl, hn]

/-- Witness for C4 (amended) at the concrete filled form state. -/
theorem claim_C4_witness :
    stripNonDigits "000.000.000-00" = "00000000000" ∧
    (handleSubmitUpdate "u4" SubmitFetch.thrown samplePayerState).request =
      some (chargePayload samplePayerState) :=
  ⟨(claim_C4 "u4" SubmitFetch.thrown samplePayerState (by decide) (by decide)
     (by decide) (by decide)).1,
   (claim_C4 "u4" SubmitFetch.thrown samplePayerState (by decide) (by decide)
     (by decide) (by decide)).2.2.1 (by decide)⟩

/-- C5: for a valid submission, a 503 response (whatever its body, so
the branch precedes the generic one) yields an informational
non-error notice and returns to the form state with no charge stored and
no polling; any other non-ok status yields an error notice carrying the
backend error when truthy and the generic key otherwise; a thrown fetch
is caught and mapped to the generic error notice; in all three cases the
state change is only the busy flag reset, and nothing is re-thrown. -/
theorem claim_C5 (uid : String) (s : HeaderState) (body : ChargeBody)
    (status : Nat) (hu : uid ≠ "") (he : s.payerEmail ≠ "")
    (hfn : s.payerFirstName ≠ "") (hl : s.payerLastName ≠ "")
    (hn : s.payerIdentificationNumber ≠ "") :
    handleSubmitUpdate uid (SubmitFetch.resp 503 body) s =
      ⟨{ s with isUpdating := false },
       [⟨Msg.key "wallet.pixNotConfigured", Severity.info⟩],
       some (chargePayload s), false⟩ ∧
    (status ≠ 503 → respOk status = false →
      handleSubmitUpdate uid (SubmitFetch.resp status body) s =
        ⟨{ s with isUpdating := false },
         [⟨jsOrKey body.error "header.updateFailed", Severity.error⟩],
         some (chargePayload s), false⟩) ∧
    (∀ m, body.error = some m → m ≠ "" →
      jsOrKey body.error "header.updateFailed" = Msg.text m) ∧
    (body.error = none →
      jsOrKey body.error "header.updateFailed" =
        Msg.key "header.updateFailed") ∧
    handleSubmitUpdate uid SubmitFetch.thrown s =
      ⟨{ s with isUpdating := false },
       [⟨Msg.key "header.updateFailed", Severity.error⟩],
       some (chargePayload s), false⟩ ∧
    Severity.info ≠ Severity.error := by
  refine ⟨?_, ?_, ?_, ?_, ?_, by decide⟩
  · simp [handleSubmitUpdate, hu, he, hfn, hl, hn]
  · intro h503 hok
    simp [handleSubmitUpdate, hu, he, hfn, hl, hn, h503, hok]
  · intro m hm hmne
    rw [hm]
    simp [jsOrKey, hmne]
  · intro hnone
    rw [hnone]
    rfl
  · simp [handleSubmitUpdate, hu, he, hfn, hl, hn]

/-- Witness for C5 at concrete 503, rejected and thrown outcomes. -/
theorem claim_C5_witness :
    handleSubmitUpdate "u5" (SubmitFetch.resp 503 ⟨some "boom", none, none, none, none⟩)
      samplePayerState =
      ⟨{ samplePayerState with isUpdating := false },
       [⟨Msg.key "wallet.pixNotConfigured", Severity.info⟩],
       some (chargePayload samplePayerState), false⟩ ∧
    handleSubmitUpdate "u5" (SubmitFetch.resp 400 ⟨some "boom", none, none, none, none⟩)
      samplePayerState =
      ⟨{ samplePayerState with isUpdating := false },
       [⟨Msg.text "boom", Severity.error⟩],
       some (chargePayload samplePayerState), false⟩ ∧
    handleSubmitUpdate "u5" SubmitFetch.thrown samplePayerState =
      ⟨{ samplePayerState with isUpdating := false },
       [⟨Msg.key "header.updateFailed", Severity.error⟩],
       some (chargePayload samplePayerState), false⟩ := by
  have h := claim_C5 "u5" samplePayerState ⟨some "boom", none, none, none, none⟩
    400 (by decide) (by decide) (by decide) (by decide) (by decide)
  refine ⟨h.1, ?_, h.2.2.2.2.1⟩
  have h2 := h.2.1 (by decide) (by decide)
  have h3 := h.2.2.1 "boom" rfl (by decide)
  rw [h2, h3]

/-- C6: with a user id present, any PayerInfo with an empty email,
first name, last name or identification number makes submit send no
request, start no polling, leave the state unchanged, and show exactly
one validation-class notice. -/
theorem claim_C6 (uid : String) (f : SubmitFetch) (s : HeaderState)
    (hu : uid ≠ "")
    (h : s.payerEmail = "" ∨ s.payerFirstName = "" ∨ s.payerLastName = "" ∨
         s.payerIdentificationNumber = "") :
    (handleSubmitUpdate uid f s).request = none ∧
    (handleSubmitUpdate uid f s).pollStarted = false ∧
    (handleSubmitUpdate uid f s).st = s ∧
    ∃ n, (handleSubmitUpdate uid f s).notices = [n] ∧
      isValidationNotice n = true := by
  by_cases h3 : s.payerEmail = "" ∨ s.payerFirstName = "" ∨ s.payerLastName = ""
  · have hres : handleSubmitUpdate uid f s =
        ⟨s, [⟨Msg.key "wallet.fillPayerInfo", Severity.error⟩], none, false⟩ := by
      simp [handleSubmitUpdate, hu, h3]
    rw [hres]
    exact ⟨rfl, rfl, rfl, ⟨Msg.key "wallet.fillPayerInfo", Severity.error⟩,
      rfl, by decide⟩
  · have h4 : s.payerIdentificationNumber = "" := by tauto
    push_neg at h3
    have hres : handleSubmitUpdate uid f s =
        ⟨s, [⟨Msg.key "wallet.enterIdentification", Severity.error⟩], none,
         false⟩ := by
      simp [handleSubmitUpdate, hu, h3.1, h3.2.1, h3.2.2, h4]
    rw [hres]
    exact ⟨rfl, rfl, rfl, ⟨Msg.key "wallet.enterIdentification", Severity.error⟩,
      rfl, by decide⟩

/-- Witness for C6 at a concrete state with empty email. -/
theorem claim_C6_witness :
    { samplePayerState with payerEmail := "" }.payerEmail = "" ∧
    (handleSubmitUpdate "u6" SubmitFetch.thrown
      { samplePayerState with payerEmail := "" }).request = none ∧
    (handleSubmitUpdate "u6" SubmitFetch.thrown
      { samplePayerState with payerEmail := "" }).st =
      { samplePayerState with payerEmail := "" } :=
  ⟨rfl,
   (claim_C6 "u6" SubmitFetch.thrown { samplePayerState with payerEmail := "" }
     (by decide) (Or.inl rfl)).1,
   (claim_C6 "u6" SubmitFetch.thrown { samplePayerState with payerEmail := "" }
     (by decide) (Or.inl rfl)).2.2.1⟩

/-- C8: in every trace from poll start, each status fetch is one
interval firing and all firings lie within the fixed 5-minute window
from poll start (so no fetch occurs after the cutoff, whatever the
statuses were); the window constant is 5 minutes; and when no terminal
status arrives, the run ends silently: state and notices are exactly as
at poll start. -/
theorem claim_C8 (s : HeaderState) (es : List HeaderEvent) :
    pollTimeoutMs = 5 * 60 * 1000 ∧
    (flowRuns es (startPollRun s)).fetches =
      (flowRuns es (startPollRun s)).ticks ∧
    pollPeriodMs * (flowRuns es (startPollRun s)).ticks ≤ pollTimeoutMs ∧
    ((∀ e ∈ es, quietEvent e = true) →
      (flowRuns es (startPollRun s)).st = s ∧
      (flowRuns es (startPollRun s)).notices = []) := by
  have hinv := flowRuns_inv es (startPollRun s) rfl (by simp [startPollRun])
  refine ⟨rfl, hinv.1, hinv.2, ?_⟩
  intro h
  have hq := flowRuns_quiet es (startPollRun s) h
  exact ⟨hq.1, hq.2.1⟩

/-- Witness for C8 at a concrete quiet trace. -/
theorem claim_C8_witness :
    pollPeriodMs * (flowRuns sampleQuietEvents (startPollRun samplePayerState)).ticks ≤
      pollTimeoutMs ∧
    (flowRuns sampleQuietEvents (startPollRun samplePayerState)).st =
      samplePayerState ∧
    (flowRuns sampleQuietEvents (startPollRun samplePayerState)).notices = [] :=
  ⟨(claim_C8 samplePayerState sampleQuietEvents).2.2.1,
   ((claim_C8 samplePayerState sampleQuietEvents).2.2.2 (by decide)).1,
   ((claim_C8 samplePayerState sampleQuietEvents).2.2.2 (by decide)).2⟩
